import Mathlib

/-!
Shallow embedding of the Tactical Feature & Probability Engine of
`tactic-scout` (`src/predict_model/src`): the static taxonomy
(`constants.py`), the heuristic tactic labeler and derived metrics
(`process_data.py`), the classifier wrapper (`model_training.py`), and
the inference-time probability adjustment (`predictor.py`).

Numbers are modelled as exact rationals (`ℚ`); Python dicts holding
string keys are modelled as association lists with Python dict-assignment
semantics; fallible Python calls return `Except PyError`.
-/

namespace TacticScout

/-- Kinds of Python exceptions relevant to the embedded code paths.
`modelNotLoadedError` is part of the spec's error vocabulary (§7); the
source never defines or raises such a class. -/
inductive PyError where
  | attributeError (msg : String)
  | keyError (msg : String)
  | modelNotLoadedError
  deriving DecidableEq, Repr

/-- A context-predicate threshold from `constants.py`: numeric, boolean
(`scoring_position`), or an inclusive range (`score_diff_range`). -/
inductive CtxThreshold where
  | num (q : ℚ)
  | boolv (b : Bool)
  | range (lo hi : ℚ)
  deriving DecidableEq, Repr

/-- A tactic's context predicate: the `contexts` dict of a taxonomy entry,
as an ordered list of (key, threshold) pairs. -/
abbrev Contexts := List (String × CtxThreshold)

/-- One taxonomy tactic entry: its `actions` list and `contexts` dict. -/
structure TacticData where
  actions : List String
  contexts : Contexts
  deriving DecidableEq, Repr

/-- `TACTICAL_CATEGORIES` from `constants.py`: category name → ordered
list of (tactic name, tactic data). -/
def TACTICAL_CATEGORIES : List (String × List (String × TacticData)) :=
  [("OFFENSIVE",
    [("power_hitting",
      ⟨["Home Run", "Double", "Triple"],
       [("min_runners", .num 1), ("scoring_position", .boolv true),
        ("min_pressure", .num (3/2))]⟩),
     ("contact_hitting",
      ⟨["Single", "Ground Ball"],
       [("max_pressure", .num (3/2)), ("max_outs", .num 2)]⟩),
     ("small_ball",
      ⟨["Sac Bunt", "Sac Fly", "Bunt Groundout"],
       [("score_diff_range", .range (-2) 2), ("max_outs", .num 1)]⟩),
     ("patient_hitting",
      ⟨["Walk", "Hit By Pitch", "Intent Walk"],
       [("min_balls", .num 2), ("max_strikes", .num 1)]⟩)]),
   ("BASERUNNING",
    [("aggressive_baserunning",
      ⟨["Stolen Base 2B", "Stolen Base 3B", "Stolen Base Home", "Triple"],
       [("max_outs", .num 1), ("min_offensive_opportunity", .num 1)]⟩),
     ("conservative_baserunning",
      ⟨["Pickoff", "Caught Stealing", "Pickoff Caught Stealing"],
       [("min_pressure", .num (3/2))]⟩)]),
   ("DEFENSIVE",
    [("defensive_outs",
      ⟨["Groundout", "Flyout", "Lineout", "Pop Out", "Forceout"],
       [("min_defensive_pressure", .num 1)]⟩),
     ("strikeout_pitching",
      ⟨["Strikeout", "Strikeout Double Play"],
       [("min_strikes", .num 2)]⟩),
     ("double_play",
      ⟨["Double Play", "Grounded Into DP", "Triple Play"],
       [("min_runners", .num 1), ("max_outs", .num 2)]⟩),
     ("field_defense",
      ⟨["Field Error", "Pickoff", "Caught Stealing"],
       [("min_defensive_pressure", .num (3/2))]⟩)])]

/-- One entry of an `ACTION_TO_TACTIC[action]` list: a `{'tactic', 'contexts'}`
dict from `constants.py`. -/
structure TacticInfo where
  tactic : String
  contexts : Contexts
  deriving DecidableEq, Repr

/-- The (action, tactic-info) pairs generated by the `ACTION_TO_TACTIC`
build loop of `constants.py`, in iteration order. -/
def ACTION_TO_TACTIC_pairs : List (String × TacticInfo) :=
  TACTICAL_CATEGORIES.flatMap (fun cat =>
    cat.2.flatMap (fun td =>
      td.2.actions.map (fun a => (a, ⟨td.1, td.2.contexts⟩))))

/-- `action in ACTION_TO_TACTIC`. -/
def actionMapped (action : String) : Bool :=
  ACTION_TO_TACTIC_pairs.any (fun p => p.1 == action)

/-- `ACTION_TO_TACTIC[action]`: the list of tactic infos appended for
this action, in append order. -/
def actionToTactic (action : String) : List TacticInfo :=
  (ACTION_TO_TACTIC_pairs.filter (fun p => p.1 == action)).map (·.2)

/-- Batter stats fields of `play_data` used by the labeler; present as a
group when a stats fetcher supplied batter stats. -/
structure BatterStats where
  ops : ℚ
  avg : ℚ
  deriving DecidableEq, Repr

/-- Pitcher stats fields of `play_data` used by the labeler. -/
structure PitcherStats where
  k_rate : ℚ
  gb_rate : ℚ
  deriving DecidableEq, Repr

/-- Matchup history fields of `play_data` used by the labeler. -/
structure MatchupStats where
  ops : ℚ
  abs : ℚ
  deriving DecidableEq, Repr

/-- The `play_data` record at the point `calculate_tactical_probabilities`
is called: raw counts, score situation, runner summary, the advanced
metrics already merged in, and the optional stat groups. -/
structure PlayData where
  inning : ℤ
  outs : ℤ
  balls : ℤ
  strikes : ℤ
  score_home : ℤ
  score_away : ℤ
  score_diff : ℤ
  is_close_game : Bool
  result : String
  num_runners : ℤ
  scoring_position : Bool
  runs_scored : ℤ
  pressure_index : ℚ
  offensive_opportunity : ℚ
  defensive_pressure : ℚ
  batter : Option BatterStats
  pitcher : Option PitcherStats
  matchup : Option MatchupStats
  deriving DecidableEq, Repr

/-- One clause of the context-check `elif` chain in
`calculate_tactical_probabilities` (`process_data.py` lines 223-243).
Keys outside the handled set (e.g. `min_strikes`) never match. -/
def contextSatisfied (p : PlayData) : String × CtxThreshold → Bool
  | ("min_runners", .num t) => decide ((p.num_runners : ℚ) ≥ t)
  | ("max_outs", .num t) => decide ((p.outs : ℚ) ≤ t)
  | ("scoring_position", .boolv b) => p.scoring_position == b
  | ("min_pressure", .num t) => decide (p.pressure_index ≥ t)
  | ("max_pressure", .num t) => decide (p.pressure_index ≤ t)
  | ("score_diff_range", .range lo hi) =>
      decide (lo ≤ (p.score_diff : ℚ)) && decide ((p.score_diff : ℚ) ≤ hi)
  | ("min_balls", .num t) => decide ((p.balls : ℚ) ≥ t)
  | ("max_strikes", .num t) => decide ((p.strikes : ℚ) ≤ t)
  | ("min_offensive_opportunity", .num t) => decide (p.offensive_opportunity ≥ t)
  | ("min_defensive_pressure", .num t) => decide (p.defensive_pressure ≥ t)
  | _ => false

/-- `context_match_count / total_contexts` for one candidate tactic. -/
def contextScore (p : PlayData) (ti : TacticInfo) : ℚ :=
  ((ti.contexts.filter (contextSatisfied p)).length : ℚ) / (ti.contexts.length : ℚ)

/-- The high-leverage multipliers of `calculate_tactical_probabilities`
(`process_data.py` lines 251-255). -/
def pressureBoost (tactic : String) (pressure prob : ℚ) : ℚ :=
  if (3/2 : ℚ) ≤ pressure then
    if tactic = "power_hitting" ∨ tactic = "patient_hitting" then prob * (6/5)
    else if tactic = "contact_hitting" ∨ tactic = "defensive_outs" then prob * (11/10)
    else prob
  else prob

/-- The base-plus-context part of the labeler's probability for one
candidate tactic: base 0.4, plus `0.6 × matched_fraction`, then the
high-pressure boosts (all inside the `total_contexts > 0` block). -/
def contextAdjusted (p : PlayData) (ti : TacticInfo) : ℚ :=
  if 0 < ti.contexts.length then
    pressureBoost ti.tactic p.pressure_index (2/5 + contextScore p ti * (3/5))
  else 2/5

/-- Batter-quality multiplier (`process_data.py` lines 259-263); applies
only when batter stats were merged into the play record. -/
def batterAdjust (batter : Option BatterStats) (tactic : String) (prob : ℚ) : ℚ :=
  match batter with
  | some bs =>
      if tactic = "power_hitting" ∧ bs.ops > 4/5 then prob * (6/5)
      else if tactic = "contact_hitting" ∧ bs.avg > 3/10 then prob * (11/10)
      else prob
  | none => prob

/-- Pitcher-quality multiplier (`process_data.py` lines 266-270). -/
def pitcherAdjust (pitcher : Option PitcherStats) (tactic : String) (prob : ℚ) : ℚ :=
  match pitcher with
  | some ps =>
      if tactic = "strikeout_pitching" ∧ ps.k_rate > 9 then prob * (6/5)
      else if tactic = "defensive_outs" ∧ ps.gb_rate > 3/2 then prob * (11/10)
      else prob
  | none => prob

/-- Matchup-history multiplier (`process_data.py` lines 273-279). -/
def matchupAdjust (matchup : Option MatchupStats) (tactic : String) (prob : ℚ) : ℚ :=
  match matchup with
  | some ms =>
      if ms.abs > 10 then
        if ms.ops > 4/5 then
          if tactic = "power_hitting" ∨ tactic = "contact_hitting" then prob * (23/20) else prob
        else if ms.ops < 3/5 then
          if tactic = "defensive_outs" ∨ tactic = "strikeout_pitching" then prob * (23/20) else prob
        else prob
      else prob
  | none => prob

/-- The player-quality multipliers applied when `prob >= 0.05`
(`process_data.py` lines 258-279). -/
def statAdjusted (p : PlayData) (tactic : String) (prob : ℚ) : ℚ :=
  matchupAdjust p.matchup tactic (pitcherAdjust p.pitcher tactic (batterAdjust p.batter tactic prob))

/-- Final labeler probability for one candidate tactic. -/
def tacticProb (p : PlayData) (ti : TacticInfo) : ℚ :=
  let prob := contextAdjusted p ti
  if 1/20 ≤ prob then statAdjusted p ti.tactic prob else prob

/-- Python dict assignment `d[k] = v` on an association list: overwrite in
place when the key exists, else append. -/
def dictInsert (d : List (String × ℚ)) (k : String) (v : ℚ) : List (String × ℚ) :=
  if d.any (fun e => e.1 == k) then
    d.map (fun e => if e.1 == k then (k, v) else e)
  else d ++ [(k, v)]

/-- `max(probabilities.items(), key=lambda x: x[1])[0]`: first key of
maximal value (Python `max` keeps the earliest maximum). -/
def argmaxFirst (l : List (String × ℚ)) : String :=
  match l with
  | [] => ""
  | e :: es => (es.foldl (fun best x => if best.2 < x.2 then x else best) e).1

/-- Return value of `calculate_tactical_probabilities`. -/
structure TacticalProbs where
  probabilities : List (String × ℚ)
  primary_tactic : String
  deriving DecidableEq, Repr

/-- The `probabilities` dict built by the candidate loop of
`calculate_tactical_probabilities` for a mapped action. -/
def labelerCandidates (p : PlayData) : List (String × ℚ) :=
  (actionToTactic p.result).foldl (fun acc ti => dictInsert acc ti.tactic (tacticProb p ti)) []

/-- `calculate_tactical_probabilities` (`process_data.py` lines 202-289). -/
def calculate_tactical_probabilities (p : PlayData) : TacticalProbs :=
  if ¬ actionMapped p.result then
    ⟨[("contact_hitting", 100)], "contact_hitting"⟩
  else
    let probabilities := labelerCandidates p
    let probabilities := if probabilities.isEmpty then [("contact_hitting", 100)] else probabilities
    ⟨probabilities, argmaxFirst probabilities⟩

/-- Unclamped pressure value of `calculate_advanced_metrics`
(`process_data.py` lines 138-143): 1.0, ×1.5 for late innings, ×(1+0.2·outs),
×1.3 with a runner in scoring position. -/
def pressureRaw (p : PlayData) : ℚ :=
  let pr : ℚ := 1
  let pr := if (7 : ℤ) ≤ p.inning then pr * (3/2) else pr
  let pr := pr * (1 + (p.outs : ℚ) * (1/5))
  if p.scoring_position then pr * (13/10) else pr

/-- `metrics["pressure_index"] = min(pressure, 2.0)`. -/
def pressure_index_of (p : PlayData) : ℚ := min (pressureRaw p) 2

/-- `metrics["game_stage"] = (min(inning, 9) - 1 + outs/3) / 9`. -/
def game_stage_of (p : PlayData) : ℚ :=
  (min (p.inning : ℚ) 9 - 1 + (p.outs : ℚ) / 3) / 9

/-- `metrics["run_expectancy"]` (`process_data.py` lines 151-156). -/
def run_expectancy_of (p : PlayData) : ℚ :=
  (p.num_runners : ℚ) * (if p.scoring_position then 1/2 else 3/10) * ((3 - (p.outs : ℚ)) / 3)

/-- `metrics["leverage_index"] = min(leverage, 3.0)` (lines 159-164). -/
def leverage_index_of (p : PlayData) : ℚ :=
  min (pressure_index_of p * (if p.is_close_game then 2 else 1) *
    (if game_stage_of p > 7/10 then 3/2 else 1)) 3

/-- `metrics["win_probability_added"]` (lines 167-171). -/
def win_probability_added_of (p : PlayData) : ℚ :=
  if (10 : ℤ) ≤ p.inning then 1/2 + ((p.score_diff : ℚ) / 2) * (1/10)
  else 1/2 + ((p.score_diff : ℚ) / (max (10 - (p.inning : ℚ)) 1)) * (1/10)

/-- `metrics["offensive_opportunity"]` (lines 174-178). -/
def offensive_opportunity_of (p : PlayData) : ℚ :=
  (p.num_runners : ℚ) * (if p.scoring_position then 3/2 else 1) * ((3 - (p.outs : ℚ)) / 3)

/-- `metrics["defensive_pressure"]` (lines 181-185). -/
def defensive_pressure_of (p : PlayData) : ℚ :=
  (p.num_runners : ℚ) * pressure_index_of p * (((p.outs : ℚ) + 1) / 3)

/-- `metrics["count_leverage"]` (lines 188-191). -/
def count_leverage_of (p : PlayData) : ℚ :=
  ((p.balls : ℚ) / 4) * (1 - (p.strikes : ℚ) / 3)

/-- `metrics["scoring_threat"]` (lines 194-198). -/
def scoring_threat_of (p : PlayData) : ℚ :=
  offensive_opportunity_of p * pressure_index_of p * (if p.is_close_game then 2 else 1)

/-- The metrics dict produced by `calculate_advanced_metrics`. -/
structure AdvancedMetrics where
  pressure_index : ℚ
  game_stage : ℚ
  run_expectancy : ℚ
  leverage_index : ℚ
  win_probability_added : ℚ
  offensive_opportunity : ℚ
  defensive_pressure : ℚ
  count_leverage : ℚ
  scoring_threat : ℚ
  deriving DecidableEq, Repr

/-- `calculate_advanced_metrics` (`process_data.py` lines 133-200). -/
def calculate_advanced_metrics (p : PlayData) : AdvancedMetrics :=
  ⟨pressure_index_of p, game_stage_of p, run_expectancy_of p, leverage_index_of p,
   win_probability_added_of p, offensive_opportunity_of p, defensive_pressure_of p,
   count_leverage_of p, scoring_threat_of p⟩

/-- A sample play record used by concrete witnesses: 8th inning, one out,
runner in scoring position, no stat enrichments. -/
def samplePlay : PlayData :=
  { inning := 8, outs := 1, balls := 0, strikes := 0, score_home := 0, score_away := 0,
    score_diff := 0, is_close_game := true, result := "Home Run", num_runners := 1,
    scoring_position := true, runs_scored := 0, pressure_index := 2,
    offensive_opportunity := 1, defensive_pressure := 1,
    batter := none, pitcher := none, matchup := none }

/-- A single-row data frame: ordered (column, value) pairs. Rows reaching
the classifier are numeric (categorical columns were already expanded to
dummy columns upstream), so values are rationals. -/
abbrev Row := List (String × ℚ)

/-- `frame[c].iloc[0]` on a single-row frame: first value under column `c`. -/
def lookupVal (row : Row) (c : String) : Option ℚ :=
  (row.find? (fun e => e.1 == c)).map (·.2)

/-- `columns_to_drop` of `prepare_features` (`model_training.py` lines 44-47). -/
def columns_to_drop : List String :=
  ["description", "tactical_probabilities", "primary_tactic",
   "batting_team", "count", "pitcher_id", "batter_id"]

/-- Python `s.startswith(pre)`. -/
def strStartsWith (s pre : String) : Bool := pre.data.isPrefixOf s.data

/-- The column-dropping steps of `prepare_features` (lines 40-48): remove
`prob_*` columns, then the explicit drop list. On a numeric row the
remaining steps before schema alignment (bool→int, dummy expansion,
numeric coercion, ±inf replacement) are identities and are omitted. -/
def dropColumns (row : Row) : Row :=
  (row.filter (fun e => ¬ strStartsWith e.1 "prob_")).filter
    (fun e => ¬ columns_to_drop.contains e.1)

/-- The zero-fill loop of `prepare_features` (lines 74-77): for each stored
feature name not present as a column, create it with value 0. -/
def addMissingZero (names : List String) (row : Row) : Row :=
  names.foldl (fun r c => if r.any (fun e => e.1 == c) then r else r ++ [(c, 0)]) row

/-- Pandas column selection `features[names]` (line 78): reorder/restrict to
`names`, failing (`KeyError`) when a requested column is absent. -/
def selectColumns (names : List String) (row : Row) : Option Row :=
  if names.all (fun c => row.any (fun e => e.1 == c)) then
    some (names.map (fun c => (c, (lookupVal row c).getD 0)))
  else none

/-- `prepare_features` on a numeric single-row frame: drop columns, then,
when a training-time schema is stored, zero-fill and re-select in the
stored order. -/
def prepare_features (feature_names : Option (List String)) (row : Row) : Option Row :=
  let features := dropColumns row
  match feature_names with
  | none => some features
  | some names => selectColumns names (addMissingZero names features)

/-- The fitted sklearn classifier held by a predictor, abstracted to its
class list and probability function. -/
structure SklearnModel where
  classes : List String
  probaFn : Row → List ℚ

/-- `TacticalPredictor` state: `self.model` and `self.feature_names`
(`model_training.py` lines 14-18), both `None` after `__init__`. -/
structure TacticalPredictor where
  model : Option SklearnModel
  feature_names : Option (List String)

/-- The state `TacticalPredictor.__init__` leaves behind. -/
def TacticalPredictor.fresh : TacticalPredictor := ⟨none, none⟩

/-- The category keys of `TACTICAL_CATEGORIES`, in order. -/
def CATEGORY_NAMES : List String := TACTICAL_CATEGORIES.map (·.1)

/-- `self.tactics_to_category.get(tactic, 'OTHER')`. Tactic names are
unique across categories, so first-category lookup agrees with the
last-write-wins dict built by `_initialize_tactics_mapping`. -/
def tacticCategory (tactic : String) : String :=
  match TACTICAL_CATEGORIES.find? (fun cat => cat.2.any (fun td => td.1 == tactic)) with
  | some cat => cat.1
  | none => "OTHER"

/-- Mathematical floor of a rational, computed directly (the denominator
is positive, so flooring division of the numerator floors the value). -/
def ratFloor (q : ℚ) : ℤ := q.num.fdiv q.den

/-- Round-half-to-even to an integer, the rounding Python's `round` uses. -/
def roundHalfEven (q : ℚ) : ℤ :=
  let f := ratFloor q
  let frac := q - f
  if frac < 1/2 then f
  else if 1/2 < frac then f + 1
  else if f % 2 = 0 then f else f + 1

/-- Python `round(q, 2)`, modelled decimally on exact rationals. -/
def pyRound2 (q : ℚ) : ℚ := (roundHalfEven (q * 100) : ℚ) / 100

/-- `tactics_by_category[cat][tactic] = v`: Python raises `KeyError` when
the outer key is absent (the `'OTHER'` default category is not a key). -/
def categoryInsert (d : List (String × List (String × ℚ))) (cat tactic : String) (v : ℚ) :
    Option (List (String × List (String × ℚ))) :=
  if d.any (fun e => e.1 == cat) then
    some (d.map (fun e => if e.1 == cat then (e.1, dictInsert e.2 tactic v) else e))
  else none

/-- Insert into a list kept descending by value, after existing entries
with a value ≥ the new one (preserves arrival order on ties). -/
def insertDesc (x : String × ℚ) : List (String × ℚ) → List (String × ℚ)
  | [] => [x]
  | y :: ys => if y.2 < x.2 then x :: y :: ys else y :: insertDesc x ys

/-- Python `sorted(items, key=lambda x: x[1], reverse=True)` (stable). -/
def sortDesc (l : List (String × ℚ)) : List (String × ℚ) :=
  l.foldl (fun acc x => insertDesc x acc) []

/-- The grouping loop of `predict_proba` (`model_training.py` lines
200-217): keep class probabilities ≥ 0.05 as percentages rounded to 2
decimals, grouped by category and sorted descending within each. -/
def categoriesFromProbs (m : SklearnModel) (probs : List ℚ) :
    Option (List (String × List (String × ℚ))) :=
  let pairs := m.classes.zip probs
  let start := TACTICAL_CATEGORIES.map (fun cat => (cat.1, ([] : List (String × ℚ))))
  let filled := pairs.foldlM (fun acc tp =>
    if (1/20 : ℚ) ≤ tp.2 then categoryInsert acc (tacticCategory tp.1) tp.1 (pyRound2 (tp.2 * 100))
    else some acc) start
  filled.map (fun d => d.map (fun e => (e.1, sortDesc e.2)))

/-- `TacticalPredictor.predict_proba` (lines 195-218): prepare features
under the stored schema, apply the model (an `AttributeError` when no
model is loaded), group the resulting probabilities. -/
def predict_proba (p : TacticalPredictor) (row : Row) :
    Except PyError (List (String × List (String × ℚ))) :=
  match prepare_features p.feature_names row with
  | none => .error (.keyError "columns not in index")
  | some features =>
    match p.model with
    | none => .error (.attributeError "NoneType object has no attribute predict_proba")
    | some m =>
      match categoriesFromProbs m (m.probaFn features) with
      | none => .error (.keyError "OTHER")
      | some out => .ok out

/-- The `model_data` dict persisted by `save_model` (lines 345-352). -/
structure ModelData where
  model : Option SklearnModel
  feature_names : Option (List String)

/-- `save_model`: persist model and feature names as one unit. -/
def save_model (p : TacticalPredictor) : ModelData := ⟨p.model, p.feature_names⟩

/-- `load_model` (lines 354-364): restore both fields from the artifact.
The post-load `self.model.classes_` access raises `AttributeError` when
the stored model was `None`. -/
def load_model (_p : TacticalPredictor) (d : ModelData) : Except PyError TacticalPredictor :=
  match d.model with
  | none => .error (.attributeError "NoneType object has no attribute classes_")
  | some _ => .ok ⟨d.model, d.feature_names⟩

/-- `context['game_situation']` of `_analyze_situation`. -/
structure GameSituation where
  inning : ℤ
  outs : ℤ
  score_diff : ℤ
  pressure_index : ℚ
  deriving DecidableEq, Repr

/-- `context['runner_situation']`. -/
structure RunnerSituation where
  runners : ℤ
  scoring_position : Bool
  deriving DecidableEq, Repr

/-- The context dict returned by `_analyze_context`. -/
structure Context where
  game_situation : GameSituation
  runner_situation : RunnerSituation
  deriving DecidableEq, Repr

/-- Python `int(q)`: truncation toward zero. -/
def pyInt (q : ℚ) : ℤ := if 0 ≤ q then ⌊q⌋ else -⌊-q⌋

/-- `TacticalPredictor._analyze_context` (lines 257-275): required fields
raise `KeyError` when absent, `num_runners`/`scoring_position` default. -/
def analyze_context (row : Row) : Option Context :=
  match lookupVal row "inning", lookupVal row "outs",
      lookupVal row "score_diff", lookupVal row "pressure_index" with
  | some inn, some outs, some sd, some pr =>
      some ⟨⟨pyInt inn, pyInt outs, pyInt sd, pyRound2 pr⟩,
            ⟨(lookupVal row "num_runners").elim 0 pyInt,
             (lookupVal row "scoring_position").elim false (fun sp => decide (sp ≠ 0))⟩⟩
  | _, _, _, _ => none

/-- What `_get_specific_actions` can return: the taxonomy entry dict
`tactics[tactic]` (with both `actions` and `contexts`), or the bare list
`[]` of the fallback return. -/
inductive ActionsResult where
  | dict (d : TacticData)
  | list (l : List String)
  deriving DecidableEq, Repr

/-- `TacticalPredictor._get_specific_actions` (lines 338-343): returns
`tactics[tactic]` — the whole taxonomy entry — for a known tactic, `[]`
otherwise. -/
def get_specific_actions (tactic : String) : ActionsResult :=
  match TACTICAL_CATEGORIES.find? (fun cat => cat.2.any (fun td => td.1 == tactic)) with
  | some cat =>
      match cat.2.find? (fun td => td.1 == tactic) with
      | some td => .dict td.2
      | none => .list []
  | none => .list []

/-- `TacticalPredictor._get_recommendation_reasoning` (lines 308-336). -/
def get_recommendation_reasoning (tactic : String) (ctx : Context) : String :=
  let gs := ctx.game_situation
  let rs := ctx.runner_situation
  let reasons : List String := []
  let reasons := if (7 : ℤ) ≤ gs.inning then reasons ++ ["Late game situation"] else reasons
  let reasons := if (3/2 : ℚ) < gs.pressure_index then reasons ++ ["High pressure situation"] else reasons
  let reasons := if rs.scoring_position then reasons ++ ["Runners in scoring position"] else reasons
  let reasons :=
    if |gs.score_diff| ≤ 2 then reasons ++ ["Close game"]
    else if 0 < gs.score_diff then reasons ++ ["Leading by multiple runs"]
    else reasons ++ ["Trailing by multiple runs"]
  let reasons := TACTICAL_CATEGORIES.foldl (fun acc cat =>
    if cat.2.any (fun td => td.1 == tactic) then
      if cat.1 = "OFFENSIVE" ∧ rs.scoring_position then
        acc ++ ["Good opportunity for run scoring"]
      else if cat.1 = "DEFENSIVE" ∧ (3/2 : ℚ) < gs.pressure_index then
        acc ++ ["Critical defensive situation"]
      else acc
    else acc) reasons
  if reasons.isEmpty then "Based on general game situation"
  else String.intercalate " | " reasons

/-- One entry of the `recommendations` list built in `analyze_situation`. -/
structure Recommendation where
  tactic : String
  probability : ℚ
  reasoning : String
  specific_actions : ActionsResult
  deriving DecidableEq, Repr

/-- The dict returned by `analyze_situation`. -/
structure AnalysisResult where
  tactical_probabilities : List (String × List (String × ℚ))
  top_tactics : List (String × ℚ)
  context_analysis : Context
  recommendations : List Recommendation
  deriving DecidableEq, Repr

/-- `TacticalPredictor.analyze_situation` (lines 220-255): predictions,
context, top-3 overall tactics, and per-tactic recommendations. -/
def analyze_situation (p : TacticalPredictor) (row : Row) : Except PyError AnalysisResult :=
  match predict_proba p row with
  | .error e => .error e
  | .ok tactical_probs =>
    match analyze_context row with
    | none => .error (.keyError "missing context column")
    | some context =>
      let all_probs := tactical_probs.foldl
        (fun acc cat => cat.2.foldl (fun a tp => dictInsert a tp.1 tp.2) acc) []
      let top_tactics := (sortDesc all_probs).take 3
      let recommendations := top_tactics.map (fun tp =>
        (⟨tp.1, tp.2, get_recommendation_reasoning tp.1 context,
          get_specific_actions tp.1⟩ : Recommendation))
      .ok ⟨tactical_probs, top_tactics, context, recommendations⟩

/-- `momentum['batting_team']['recent_success']` and
`momentum['pitching_team']['recent_success']`; `none` models the empty
momentum dict `{}` (falsy in `if momentum:`). -/
structure Momentum where
  batting_recent : ℚ
  pitching_recent : ℚ
  deriving DecidableEq, Repr

/-- `momentum_weights` of `_calculate_momentum_factor`
(`predictor.py` lines 341-348). -/
def momentum_weights : List (String × ℚ) :=
  [("aggressive_hitting", 1/5), ("patient_hitting", -(1/10)), ("power_hitting", 3/20),
   ("small_ball", 1/10), ("defensive_pressure", 1/5), ("strikeout_hunting", 3/20)]

/-- `momentum_weights.get(tactic, 0.1)`. -/
def momentumWeight (tactic : String) : ℚ :=
  ((momentum_weights.find? (fun e => e.1 == tactic)).map (·.2)).getD (1/10)

/-- `MLBTacticalAnalyzer._calculate_momentum_factor` (lines 336-353). -/
def calculate_momentum_factor (mom : Momentum) (tactic : String) : ℚ :=
  (mom.batting_recent - mom.pitching_recent) * momentumWeight tactic

/-- The historical-patterns dict of `_analyze_historical_patterns`:
per-category per-tactic success rates plus the matched sample size. -/
structure Historical where
  success_rates : List (String × List (String × ℚ))
  sample_size : ℤ
  deriving DecidableEq, Repr

/-- `historical.get('success_rates', {}).get(category, {}).get(tactic, 0)`. -/
def lookupRate (rates : List (String × List (String × ℚ))) (cat tactic : String) : ℚ :=
  match rates.find? (fun e => e.1 == cat) with
  | some ce => (((ce.2.find? (fun e => e.1 == tactic)).map (·.2)).getD 0)
  | none => 0

/-- The per-tactic body of `_adjust_probabilities` (`predictor.py` lines
304-316): historical factor only when the looked-up rate is positive,
momentum factor only when momentum data is present, then clamp to
[0,100] and round to 2 decimals. -/
def adjust_one (mom : Option Momentum) (tactic : String) (prob hist : ℚ) : ℚ :=
  let prob := if 0 < hist then prob * (1 + (hist - 50) / 100) else prob
  let prob :=
    match mom with
    | some mo => prob * (1 + calculate_momentum_factor mo tactic)
    | none => prob
  pyRound2 (min (max prob 0) 100)

/-- `MLBTacticalAnalyzer._adjust_probabilities` (lines 297-318). -/
def adjust_probabilities (base : List (String × List (String × ℚ)))
    (historical : Historical) (mom : Option Momentum) :
    List (String × List (String × ℚ)) :=
  base.map (fun ce => (ce.1, ce.2.map (fun tp =>
    (tp.1, adjust_one mom tp.1 tp.2 (lookupRate historical.success_rates ce.1 tp.1)))))

/-- Modelled from the spec's words (§4.4): final probability =
`base × (1 + (historical_success_rate − 50)/100) × (1 + momentum_factor)`,
clamped to [0,100], rounded to 2 decimals. Stated for comparison with
`adjust_one`, which is translated from the source. -/
def specAdjustedProb (base hist mf : ℚ) : ℚ :=
  pyRound2 (min (max (base * (1 + (hist - 50) / 100) * (1 + mf)) 0) 100)

/-- The per-play success-indicator columns read by
`_calculate_recent_success`. -/
structure PlayInd where
  hit : ℚ
  walk : ℚ
  run_scored : ℚ
  strikeout : ℚ
  out : ℚ
  double_play : ℚ
  deriving DecidableEq, Repr

/-- Value of a named indicator column in one play row. -/
def indVal (ind : String) (r : PlayInd) : ℚ :=
  match ind with
  | "hit" => r.hit
  | "walk" => r.walk
  | "run_scored" => r.run_scored
  | "strikeout" => r.strikeout
  | "out" => r.out
  | "double_play" => r.double_play
  | _ => 0

/-- `success_indicators[team_type]` (`predictor.py` lines 252-257); the
function is only ever called with `'batting'` or `'pitching'`. -/
def success_indicators (team_type : String) : List String :=
  if team_type = "batting" then ["hit", "walk", "run_scored"]
  else ["strikeout", "out", "double_play"]

/-- `MLBTacticalAnalyzer._calculate_recent_success` (lines 247-264): sum
the per-indicator column totals over the indicators present as columns,
divide by the number of plays, cap at 1. -/
def calculate_recent_success (cols : List String) (plays : List PlayInd)
    (team_type : String) : ℚ :=
  if plays.isEmpty then 0
  else
    let success_count := ((success_indicators team_type).filter
      (fun i => cols.contains i)).foldl (fun acc i => acc + (plays.map (indVal i)).sum) 0
    min (success_count / (plays.length : ℚ)) 1

/-- A play has a positive batting indicator (hit, walk, or run scored). -/
def battingPositive (r : PlayInd) : Bool :=
  decide (0 < r.hit) || decide (0 < r.walk) || decide (0 < r.run_scored)

/-- A play has a positive pitching indicator (strikeout, out, double play). -/
def pitchingPositive (r : PlayInd) : Bool :=
  decide (0 < r.strikeout) || decide (0 < r.out) || decide (0 < r.double_play)

/-- Modelled from the spec's words (§4.4): the recent-success ratio as the
fraction of the plays with a positive indicator. Stated for comparison
with `calculate_recent_success`, which is translated from the source. -/
def specRecentSuccessFraction (plays : List PlayInd) (positive : PlayInd → Bool) : ℚ :=
  ((plays.filter positive).length : ℚ) / (plays.length : ℚ)

/-- All six indicator columns present. -/
def allIndicatorCols : List String :=
  ["hit", "walk", "run_scored", "strikeout", "out", "double_play"]

/-- A play that is simultaneously a hit and a scored run: one play, two
positive batting indicators. -/
def doubleCountPlay : PlayInd := ⟨1, 0, 1, 0, 0, 0⟩

/-- A play with no positive indicator. -/
def quietPlay : PlayInd := ⟨0, 0, 0, 0, 0, 0⟩

/-- Five recent plays where exactly one play has a positive batting
indicator (but two of them). -/
def cexPlays : List PlayInd := [doubleCountPlay, quietPlay, quietPlay, quietPlay, quietPlay]

/-- A play whose only positive indicator is a hit. -/
def hitPlay : PlayInd := ⟨1, 0, 0, 0, 0, 0⟩

/-- A play whose only positive indicator is a strikeout. -/
def strikeoutPlay : PlayInd := ⟨0, 0, 0, 1, 0, 0⟩

/-- Scenario D of the spec: 4 batting hits and 1 pitching-side success. -/
def scenarioDPlays : List PlayInd := [hitPlay, hitPlay, hitPlay, hitPlay, strikeoutPlay]

/-- A trained model stub used by concrete witnesses. -/
def sampleModel : SklearnModel :=
  ⟨["power_hitting", "contact_hitting"], fun _ => [7/10, 3/10]⟩

/-- A predictor holding `sampleModel` and a stored feature schema. -/
def samplePredictor : TacticalPredictor :=
  ⟨some sampleModel, some ["inning", "outs", "score_diff", "pressure_index"]⟩

/-- A single-row game state used by concrete witnesses. -/
def sampleRow : Row :=
  [("inning", 8), ("outs", 1), ("score_diff", 0), ("pressure_index", 2),
   ("num_runners", 1), ("scoring_position", 1)]

theorem le_contextAdjusted (p : PlayData) (ti : TacticInfo) :
    (2/5 : ℚ) ≤ contextAdjusted p ti := by
  have hscore : 0 ≤ contextScore p ti := by
    unfold contextScore; positivity
  have hbase : (2/5 : ℚ) ≤ 2/5 + contextScore p ti * (3/5) := by nlinarith
  unfold contextAdjusted pressureBoost
  split
  · split
    · split
      · nlinarith
      · split
        · nlinarith
        · exact hbase
    · exact hbase
  · exact le_refl _

theorem le_batterAdjust (batter : Option BatterStats) (tactic : String) (prob : ℚ)
    (h : 0 ≤ prob) : prob ≤ batterAdjust batter tactic prob := by
  unfold batterAdjust
  rcases batter with _ | bs
  · exact le_refl _
  · dsimp only
    split
    · nlinarith
    · split
      · nlinarith
      · exact le_refl _

theorem le_pitcherAdjust (pitcher : Option PitcherStats) (tactic : String) (prob : ℚ)
    (h : 0 ≤ prob) : prob ≤ pitcherAdjust pitcher tactic prob := by
  unfold pitcherAdjust
  rcases pitcher with _ | ps
  · exact le_refl _
  · dsimp only
    split
    · nlinarith
    · split
      · nlinarith
      · exact le_refl _

theorem le_matchupAdjust (matchup : Option MatchupStats) (tactic : String) (prob : ℚ)
    (h : 0 ≤ prob) : prob ≤ matchupAdjust matchup tactic prob := by
  unfold matchupAdjust
  rcases matchup with _ | ms
  · exact le_refl _
  · dsimp only
    split
    · split
      · split
        · nlinarith
        · exact le_refl _
      · split
        · split
          · nlinarith
          · exact le_refl _
        · exact le_refl _
    · exact le_refl _

theorem le_statAdjusted (p : PlayData) (tactic : String) (prob : ℚ)
    (h : 0 ≤ prob) : prob ≤ statAdjusted p tactic prob := by
  unfold statAdjusted
  have h1 := le_batterAdjust p.batter tactic prob h
  have h2 := le_pitcherAdjust p.pitcher tactic (batterAdjust p.batter tactic prob) (le_trans h h1)
  have h3 := le_matchupAdjust p.matchup tactic
    (pitcherAdjust p.pitcher tactic (batterAdjust p.batter tactic prob))
    (le_trans (le_trans h h1) h2)
  linarith

/-- Every candidate probability produced by the labeler loop is at least
the base 0.4: context matching only adds, boosts only multiply by ≥ 1. -/
theorem le_tacticProb (p : PlayData) (ti : TacticInfo) : (2/5 : ℚ) ≤ tacticProb p ti := by
  unfold tacticProb
  have hc := le_contextAdjusted p ti
  have hcond : (1/20 : ℚ) ≤ contextAdjusted p ti := by linarith
  rw [if_pos hcond]
  have := le_statAdjusted p ti.tactic (contextAdjusted p ti) (by linarith)
  linarith

theorem mem_dictInsert {x : String × ℚ} {d : List (String × ℚ)} {k : String} {v : ℚ}
    (h : x ∈ dictInsert d k v) : x ∈ d ∨ x = (k, v) := by
  unfold dictInsert at h
  split at h
  · obtain ⟨e, he, hx⟩ := List.mem_map.mp h
    by_cases hek : (e.1 == k) = true
    · right; rw [if_pos hek] at hx; exact hx.symm
    · left; rw [if_neg hek] at hx; rw [← hx]; exact he
  · rcases List.mem_append.mp h with h1 | h2
    · left; exact h1
    · right; simpa using h2

theorem dictInsert_ne_nil (d : List (String × ℚ)) (k : String) (v : ℚ) :
    dictInsert d k v ≠ [] := by
  unfold dictInsert
  split
  · intro hmap
    rename_i hany
    rw [List.map_eq_nil_iff] at hmap
    subst hmap
    simp at hany
  · intro happ
    simp at happ

theorem foldl_dictInsert_bound (p : PlayData) (P : ℚ → Prop)
    (hP : ∀ ti : TacticInfo, P (tacticProb p ti)) :
    ∀ (l : List TacticInfo) (acc : List (String × ℚ)),
      (∀ x ∈ acc, P x.2) →
      ∀ x ∈ l.foldl (fun a ti => dictInsert a ti.tactic (tacticProb p ti)) acc, P x.2 := by
  intro l
  induction l with
  | nil => intro acc hacc x hx; exact hacc x hx
  | cons t ts ih =>
      intro acc hacc x hx
      refine ih (dictInsert acc t.tactic (tacticProb p t)) ?_ x hx
      intro y hy
      rcases mem_dictInsert hy with h1 | h2
      · exact hacc y h1
      · rw [h2]; exact hP t

theorem foldl_dictInsert_ne_nil (p : PlayData) :
    ∀ (l : List TacticInfo) (acc : List (String × ℚ)),
      acc ≠ [] ∨ l ≠ [] →
      l.foldl (fun a ti => dictInsert a ti.tactic (tacticProb p ti)) acc ≠ [] := by
  intro l
  induction l with
  | nil =>
      intro acc h
      rcases h with h | h
      · exact h
      · exact absurd rfl h
  | cons t ts ih =>
      intro acc _
      exact ih (dictInsert acc t.tactic (tacticProb p t))
        (Or.inl (dictInsert_ne_nil acc t.tactic (tacticProb p t)))

theorem actionToTactic_ne_nil {a : String} (h : actionMapped a = true) :
    actionToTactic a ≠ [] := by
  unfold actionMapped at h
  unfold actionToTactic
  obtain ⟨x, hx, hxa⟩ := List.any_eq_true.mp h
  intro hnil
  rw [List.map_eq_nil_iff, List.filter_eq_nil_iff] at hnil
  exact hnil x hx hxa

theorem labelerCandidates_ne_nil {p : PlayData} (h : actionMapped p.result = true) :
    labelerCandidates p ≠ [] :=
  foldl_dictInsert_ne_nil p (actionToTactic p.result) []
    (Or.inr (actionToTactic_ne_nil h))

theorem labelerCandidates_bound (p : PlayData) :
    ∀ x ∈ labelerCandidates p, (2/5 : ℚ) ≤ x.2 :=
  foldl_dictInsert_bound p (fun q => (2/5 : ℚ) ≤ q) (le_tacticProb p)
    (actionToTactic p.result) [] (by intro x hx; cases hx)

/-- C2: for every outcome action not in `ACTION_TO_TACTIC`, the labeler
returns exactly `{'contact_hitting': 100.0}` with primary tactic
`contact_hitting`. -/
theorem labeler_unmapped_fallback (p : PlayData) (h : actionMapped p.result = false) :
    calculate_tactical_probabilities p =
      ⟨[("contact_hitting", 100)], "contact_hitting"⟩ := by
  unfold calculate_tactical_probabilities
  rw [if_pos]
  rw [h]
  exact Bool.false_ne_true

theorem labeler_unmapped_fallback_witness :
    actionMapped "Unknown Event" = false ∧
      calculate_tactical_probabilities { samplePlay with result := "Unknown Event" } =
        ⟨[("contact_hitting", 100)], "contact_hitting"⟩ :=
  ⟨by decide, labeler_unmapped_fallback { samplePlay with result := "Unknown Event" } (by decide)⟩

/-- C8: for every play record whose result is a mapped action, every
probability in the labeler's returned mapping is at least 0.05 (indeed
none is ever below the base 0.4, so the 0.05 floor never removes any). -/
theorem labeler_no_prob_below_floor (p : PlayData) (h : actionMapped p.result = true) :
    ∀ x ∈ (calculate_tactical_probabilities p).probabilities, (1/20 : ℚ) ≤ x.2 := by
  unfold calculate_tactical_probabilities
  rw [if_neg (by rw [h]; exact fun hc => hc rfl)]
  dsimp only
  rw [if_neg (by rw [List.isEmpty_iff]; exact labelerCandidates_ne_nil h)]
  intro x hx
  have := labelerCandidates_bound p x hx
  linarith

theorem labeler_no_prob_below_floor_witness :
    actionMapped samplePlay.result = true ∧
      ∀ x ∈ (calculate_tactical_probabilities samplePlay).probabilities, (1/20 : ℚ) ≤ x.2 :=
  ⟨by decide, labeler_no_prob_below_floor samplePlay (by decide)⟩

/-- C10: for a mapped action the labeler's candidate dict is non-empty and
every candidate probability is at least the base 0.4, so the
`if not probabilities` fallback inside the mapped branch never fires: the
returned mapping is exactly the candidate dict. -/
theorem labeler_candidates_nonempty_base_bound (p : PlayData)
    (h : actionMapped p.result = true) :
    (calculate_tactical_probabilities p).probabilities = labelerCandidates p ∧
      labelerCandidates p ≠ [] ∧
      ∀ x ∈ labelerCandidates p, (2/5 : ℚ) ≤ x.2 := by
  refine ⟨?_, labelerCandidates_ne_nil h, labelerCandidates_bound p⟩
  unfold calculate_tactical_probabilities
  rw [if_neg (by rw [h]; exact fun hc => hc rfl)]
  dsimp only
  rw [if_neg (by rw [List.isEmpty_iff]; exact labelerCandidates_ne_nil h)]

theorem labeler_candidates_nonempty_base_bound_witness :
    actionMapped samplePlay.result = true ∧
      ((calculate_tactical_probabilities samplePlay).probabilities = labelerCandidates samplePlay ∧
        labelerCandidates samplePlay ≠ [] ∧
        ∀ x ∈ labelerCandidates samplePlay, (2/5 : ℚ) ≤ x.2) :=
  ⟨by decide, labeler_candidates_nonempty_base_bound samplePlay (by decide)⟩

/-- C3: for every play record with inning ≥ 1 and outs in [0,3], the
derived metrics satisfy 0 ≤ pressure_index ≤ 2, 0 ≤ leverage_index ≤ 3 and
0 ≤ game_stage ≤ 1. -/
theorem advanced_metrics_bounds (p : PlayData) (h1 : 1 ≤ p.inning)
    (h2 : 0 ≤ p.outs) (h3 : p.outs ≤ 3) :
    0 ≤ (calculate_advanced_metrics p).pressure_index ∧
      (calculate_advanced_metrics p).pressure_index ≤ 2 ∧
      0 ≤ (calculate_advanced_metrics p).leverage_index ∧
      (calculate_advanced_metrics p).leverage_index ≤ 3 ∧
      0 ≤ (calculate_advanced_metrics p).game_stage ∧
      (calculate_advanced_metrics p).game_stage ≤ 1 := by
  have ho : (0 : ℚ) ≤ (p.outs : ℚ) := by exact_mod_cast h2
  have ho3 : ((p.outs : ℚ)) ≤ 3 := by exact_mod_cast h3
  have hi : (1 : ℚ) ≤ (p.inning : ℚ) := by exact_mod_cast h1
  have hpr : 0 ≤ pressureRaw p := by
    unfold pressureRaw
    split_ifs <;> nlinarith
  have hp0 : 0 ≤ pressure_index_of p := le_min hpr (by norm_num)
  have hp2 : pressure_index_of p ≤ 2 := min_le_right _ _
  have hgs0 : 0 ≤ game_stage_of p := by
    unfold game_stage_of
    have hmin : (1 : ℚ) ≤ min ((p.inning : ℚ)) 9 := le_min hi (by norm_num)
    have hdiv : (0 : ℚ) ≤ (p.outs : ℚ) / 3 := by positivity
    have hnum : (0 : ℚ) ≤ min ((p.inning : ℚ)) 9 - 1 + (p.outs : ℚ) / 3 := by linarith
    positivity
  have hgs1 : game_stage_of p ≤ 1 := by
    unfold game_stage_of
    rw [div_le_one (by norm_num : (0 : ℚ) < 9)]
    have hm := min_le_right ((p.inning : ℚ)) 9
    have hdiv : (p.outs : ℚ) / 3 ≤ 1 := by
      rw [div_le_one (by norm_num : (0 : ℚ) < 3)]
      linarith
    linarith
  have hl0 : 0 ≤ leverage_index_of p := by
    unfold leverage_index_of
    refine le_min ?_ (by norm_num)
    split_ifs <;> nlinarith
  have hl3 : leverage_index_of p ≤ 3 := min_le_right _ _
  exact ⟨hp0, hp2, hl0, hl3, hgs0, hgs1⟩

theorem advanced_metrics_bounds_witness :
    (1 ≤ samplePlay.inning ∧ 0 ≤ samplePlay.outs ∧ samplePlay.outs ≤ 3) ∧
      (0 ≤ (calculate_advanced_metrics samplePlay).pressure_index ∧
        (calculate_advanced_metrics samplePlay).pressure_index ≤ 2 ∧
        0 ≤ (calculate_advanced_metrics samplePlay).leverage_index ∧
        (calculate_advanced_metrics samplePlay).leverage_index ≤ 3 ∧
        0 ≤ (calculate_advanced_metrics samplePlay).game_stage ∧
        (calculate_advanced_metrics samplePlay).game_stage ≤ 1) :=
  ⟨by decide, advanced_metrics_bounds samplePlay (by decide) (by decide) (by decide)⟩

theorem ratFloor_intCast (n : ℤ) : ratFloor ((n : ℚ)) = n := by
  unfold ratFloor
  rw [Rat.num_intCast, Rat.den_intCast]
  simp [Int.fdiv_one]

theorem roundHalfEven_intCast (n : ℤ) : roundHalfEven ((n : ℚ)) = n := by
  unfold roundHalfEven
  rw [ratFloor_intCast]
  norm_num

theorem pyRound2_intCast (n : ℤ) : pyRound2 ((n : ℚ)) = n := by
  unfold pyRound2
  have h : ((n : ℚ)) * 100 = (((n * 100 : ℤ) : ℚ)) := by push_cast; ring
  rw [h, roundHalfEven_intCast]
  push_cast
  field_simp

theorem lookupVal_isSome_eq_any (r : Row) (c : String) :
    (lookupVal r c).isSome = r.any (fun e => e.1 == c) := by
  unfold lookupVal
  induction r with
  | nil => rfl
  | cons e es ih =>
      cases he : (e.1 == c) with
      | true => simp [List.find?_cons, he]
      | false =>
          simp only [List.find?_cons, he, List.any_cons, Bool.false_or]
          exact ih

theorem lookupVal_append_of_some {r : Row} {c : String} {v : ℚ}
    (h : lookupVal r c = some v) (l : Row) : lookupVal (r ++ l) c = some v := by
  unfold lookupVal at h ⊢
  induction r with
  | nil => simp at h
  | cons e es ih =>
      cases he : (e.1 == c) with
      | true =>
          rw [List.find?_cons, he] at h
          rw [List.cons_append, List.find?_cons, he]
          exact h
      | false =>
          rw [List.find?_cons, he] at h
          rw [List.cons_append, List.find?_cons, he]
          exact ih h

theorem lookupVal_append_self_of_none {r : Row} {c : String} (v : ℚ)
    (h : lookupVal r c = none) : lookupVal (r ++ [(c, v)]) c = some v := by
  unfold lookupVal at h ⊢
  induction r with
  | nil => simp
  | cons e es ih =>
      cases he : (e.1 == c) with
      | true =>
          rw [List.find?_cons, he] at h
          simp at h
      | false =>
          rw [List.find?_cons, he] at h
          rw [List.cons_append, List.find?_cons, he]
          exact ih h

theorem lookupVal_append_other_of_none {r : Row} {c k : String} (v : ℚ)
    (h : lookupVal r c = none) (hk : (k == c) = false) :
    lookupVal (r ++ [(k, v)]) c = none := by
  unfold lookupVal at h ⊢
  induction r with
  | nil => simp [List.find?, hk]
  | cons e es ih =>
      cases he : (e.1 == c) with
      | true =>
          rw [List.find?_cons, he] at h
          simp at h
      | false =>
          rw [List.find?_cons, he] at h
          rw [List.cons_append, List.find?_cons, he]
          exact ih h

theorem lookupVal_addMissingZero_of_some {c : String} {v : ℚ} :
    ∀ (names : List String) (r : Row), lookupVal r c = some v →
      lookupVal (addMissingZero names r) c = some v := by
  intro names
  induction names with
  | nil => intro r h; exact h
  | cons n ns ih =>
      intro r h
      unfold addMissingZero
      rw [List.foldl_cons]
      by_cases hc : (r.any (fun e => e.1 == n)) = true
      · rw [if_pos hc]
        exact ih r h
      · rw [if_neg hc]
        exact ih (r ++ [(n, 0)]) (lookupVal_append_of_some h _)

theorem lookupVal_addMissingZero_of_none {c : String} :
    ∀ (names : List String) (r : Row), c ∈ names → lookupVal r c = none →
      lookupVal (addMissingZero names r) c = some 0 := by
  intro names
  induction names with
  | nil => intro r hmem; cases hmem
  | cons n ns ih =>
      intro r hmem h
      unfold addMissingZero
      rw [List.foldl_cons]
      by_cases heq : n = c
      · subst heq
        have hany : (r.any (fun e => e.1 == n)) = false := by
          rw [← lookupVal_isSome_eq_any, h]
          rfl
        rw [hany]
        simp only [Bool.false_eq_true, if_false]
        exact lookupVal_addMissingZero_of_some ns (r ++ [(n, 0)])
          (lookupVal_append_self_of_none 0 h)
      · have hmem' : c ∈ ns := by
          cases hmem with
          | head => exact absurd rfl heq
          | tail _ hm => exact hm
        by_cases hc : (r.any (fun e => e.1 == n)) = true
        · rw [if_pos hc]
          exact ih r hmem' h
        · rw [if_neg hc]
          refine ih (r ++ [(n, 0)]) hmem' ?_
          exact lookupVal_append_other_of_none 0 h (by simpa using heq)

/-- The aligned row `prepare_features` produces when a feature schema is
stored: exactly the stored names, in order, with original values where
present and 0 where missing. -/
theorem prepare_features_some (names : List String) (row : Row) :
    prepare_features (some names) row =
      some (names.map (fun c => (c, (lookupVal (dropColumns row) c).getD 0))) := by
  simp only [prepare_features, selectColumns]
  have hall : (names.all (fun c =>
      (addMissingZero names (dropColumns row)).any (fun e => e.1 == c))) = true := by
    rw [List.all_eq_true]
    intro c hc
    rw [← lookupVal_isSome_eq_any]
    cases h : lookupVal (dropColumns row) c with
    | some v => rw [lookupVal_addMissingZero_of_some names _ h]; rfl
    | none => rw [lookupVal_addMissingZero_of_none names _ hc h]; rfl
  rw [if_pos hall]
  congr 1
  apply List.map_congr_left
  intro c hc
  cases h : lookupVal (dropColumns row) c with
  | some v => rw [lookupVal_addMissingZero_of_some names _ h]
  | none => rw [lookupVal_addMissingZero_of_none names _ hc h]; rfl

theorem any_key_map_categoryInsert (d : List (String × List (String × ℚ)))
    (cat t : String) (v : ℚ) (c : String) :
    ((d.map (fun e => if e.1 == cat then (e.1, dictInsert e.2 t v) else e)).any
        (fun e => e.1 == c)) = d.any (fun e => e.1 == c) := by
  induction d with
  | nil => rfl
  | cons x xs ih =>
      cases hx : (x.1 == cat) with
      | true => simp only [List.map_cons, List.any_cons, hx, if_true, ih]
      | false => simp only [List.map_cons, List.any_cons, hx, Bool.false_eq_true, if_false, ih]

theorem categoryInsert_some {d : List (String × List (String × ℚ))} {cat : String}
    (h : (d.any (fun e => e.1 == cat)) = true) (t : String) (v : ℚ) :
    ∃ d', categoryInsert d cat t v = some d' ∧
      ∀ c, (d'.any (fun e => e.1 == c)) = d.any (fun e => e.1 == c) := by
  unfold categoryInsert
  rw [if_pos h]
  exact ⟨_, rfl, fun c => any_key_map_categoryInsert d cat t v c⟩

theorem fold_categoryInsert_some :
    ∀ (pairs : List (String × ℚ)) (acc : List (String × List (String × ℚ))),
      (∀ tp ∈ pairs, (acc.any (fun e => e.1 == tacticCategory tp.1)) = true) →
      ∃ out, (pairs.foldlM (fun acc tp =>
          if (1/20 : ℚ) ≤ tp.2 then
            categoryInsert acc (tacticCategory tp.1) tp.1 (pyRound2 (tp.2 * 100))
          else some acc) acc) = some out := by
  intro pairs
  induction pairs with
  | nil => intro acc _; exact ⟨acc, rfl⟩
  | cons tp tps ih =>
      intro acc hacc
      rw [List.foldlM_cons]
      by_cases hle : (1/20 : ℚ) ≤ tp.2
      · rw [if_pos hle]
        obtain ⟨d', hd', hkeys⟩ :=
          categoryInsert_some (hacc tp (List.mem_cons_self tp tps)) tp.1 (pyRound2 (tp.2 * 100))
        rw [hd']
        simp only [Option.bind_some, Option.pure_def, Option.bind_eq_bind]
        exact ih d' (fun q hq => by
          rw [hkeys]; exact hacc q (List.mem_cons_of_mem _ hq))
      · rw [if_neg hle]
        simp only [Option.bind_some, Option.pure_def, Option.bind_eq_bind]
        exact ih acc (fun q hq => hacc q (List.mem_cons_of_mem _ hq))

theorem categoriesFromProbs_some (m : SklearnModel) (probs : List ℚ)
    (hcls : ∀ t ∈ m.classes, tacticCategory t ∈ CATEGORY_NAMES) :
    ∃ out, categoriesFromProbs m probs = some out := by
  simp only [categoriesFromProbs]
  have hstart : ∀ tp ∈ m.classes.zip probs,
      ((TACTICAL_CATEGORIES.map (fun cat => (cat.1, ([] : List (String × ℚ))))).any
        (fun e => e.1 == tacticCategory tp.1)) = true := by
    intro tp htp
    have ht : tp.1 ∈ m.classes := (List.of_mem_zip htp).1
    have hc := hcls tp.1 ht
    unfold CATEGORY_NAMES at hc
    rw [List.any_eq_true]
    obtain ⟨cat, hcat, hceq⟩ := List.mem_map.mp hc
    exact ⟨(cat.1, []), List.mem_map_of_mem _ hcat, by rw [hceq]; exact beq_self_eq_true _⟩
  obtain ⟨out, hout⟩ := fold_categoryInsert_some (m.classes.zip probs) _ hstart
  rw [hout]
  exact ⟨_, rfl⟩

/-- C4: `predict_proba` on a row missing training-time columns does not
fail: the features handed to the model are exactly the stored feature
names, in the stored order, with missing columns synthesized as 0 and
extra columns dropped. -/
theorem predict_proba_schema_reconciliation (m : SklearnModel) (names : List String)
    (row : Row) (hcls : ∀ t ∈ m.classes, tacticCategory t ∈ CATEGORY_NAMES) :
    prepare_features (some names) row =
        some (names.map (fun c => (c, (lookupVal (dropColumns row) c).getD 0))) ∧
      ∃ out, predict_proba ⟨some m, some names⟩ row = Except.ok out := by
  have hprep := prepare_features_some names row
  refine ⟨hprep, ?_⟩
  unfold predict_proba
  rw [hprep]
  obtain ⟨out, hout⟩ := categoriesFromProbs_some m
    (m.probaFn (names.map (fun c => (c, (lookupVal (dropColumns row) c).getD 0)))) hcls
  dsimp only
  rw [hout]
  exact ⟨out, rfl⟩

theorem predict_proba_schema_reconciliation_witness :
    (∀ t ∈ sampleModel.classes, tacticCategory t ∈ CATEGORY_NAMES) ∧
      (prepare_features (some ["inning", "outs", "score_diff", "pressure_index"]) [("outs", 1)] =
          some (["inning", "outs", "score_diff", "pressure_index"].map
            (fun c => (c, (lookupVal (dropColumns [("outs", 1)]) c).getD 0))) ∧
        ∃ out, predict_proba ⟨some sampleModel,
          some ["inning", "outs", "score_diff", "pressure_index"]⟩ [("outs", 1)] =
            Except.ok out) :=
  ⟨by decide, predict_proba_schema_reconciliation sampleModel
    ["inning", "outs", "score_diff", "pressure_index"] [("outs", 1)] (by decide)⟩

/-- C5: saving a trained predictor and loading the artifact yields a
predictor with identical `predict_proba` output on any fixed row. -/
theorem save_load_roundtrip (p q : TacticalPredictor) (m : SklearnModel)
    (h : p.model = some m) (row : Row) :
    ∃ p', load_model q (save_model p) = Except.ok p' ∧
      predict_proba p' row = predict_proba p row := by
  refine ⟨⟨p.model, p.feature_names⟩, ?_, rfl⟩
  unfold load_model save_model
  dsimp only
  rw [h]

theorem save_load_roundtrip_witness :
    samplePredictor.model = some sampleModel ∧
      ∃ p', load_model TacticalPredictor.fresh (save_model samplePredictor) = Except.ok p' ∧
        predict_proba p' sampleRow = predict_proba samplePredictor sampleRow :=
  ⟨rfl, save_load_roundtrip samplePredictor TacticalPredictor.fresh sampleModel rfl sampleRow⟩

/-- C7 as stated is false: the fresh predictor's `predict_proba` fails with
an `AttributeError` on `self.model = None`, not with a
`ModelNotLoadedError` (no such class exists in the code). -/
theorem predict_proba_unloaded_not_modelNotLoadedError :
    predict_proba TacticalPredictor.fresh sampleRow =
        Except.error (PyError.attributeError "NoneType object has no attribute predict_proba") ∧
      predict_proba TacticalPredictor.fresh sampleRow ≠
        Except.error PyError.modelNotLoadedError := by
  have h1 : predict_proba TacticalPredictor.fresh sampleRow =
      Except.error (PyError.attributeError "NoneType object has no attribute predict_proba") := rfl
  refine ⟨h1, ?_⟩
  rw [h1]
  intro h
  exact PyError.noConfusion (Except.error.inj h)

/-- C7 amended: calling `predict_proba` (and hence `analyze_situation`)
before any model is trained or loaded fails — with an `AttributeError`
raised by the `None` model. -/
theorem predict_proba_unloaded_attributeError (row : Row) :
    predict_proba TacticalPredictor.fresh row =
        Except.error (PyError.attributeError "NoneType object has no attribute predict_proba") ∧
      analyze_situation TacticalPredictor.fresh row =
        Except.error (PyError.attributeError "NoneType object has no attribute predict_proba") :=
  ⟨rfl, rfl⟩

/-- C9: `_get_specific_actions` does not return the taxonomy's action list
for the tactic — it returns the whole taxonomy entry dict (actions and
context thresholds together), contradicting its own `List[str]`
annotation. Shown at `power_hitting`. -/
theorem get_specific_actions_returns_entry_dict :
    get_specific_actions "power_hitting" =
        ActionsResult.dict ⟨["Home Run", "Double", "Triple"],
          [("min_runners", .num 1), ("scoring_position", .boolv true),
           ("min_pressure", .num (3/2))]⟩ ∧
      ∀ l : List String, get_specific_actions "power_hitting" ≠ ActionsResult.list l := by
  have h1 : get_specific_actions "power_hitting" =
      ActionsResult.dict ⟨["Home Run", "Double", "Triple"],
        [("min_runners", .num 1), ("scoring_position", .boolv true),
         ("min_pressure", .num (3/2))]⟩ := rfl
  refine ⟨h1, ?_⟩
  intro l h
  rw [h1] at h
  exact ActionsResult.noConfusion h

theorem adjust_one_eq_spec (mo : Momentum) (tactic : String) (prob hist : ℚ) :
    adjust_one (some mo) tactic prob hist =
      specAdjustedProb prob (if 0 < hist then hist else 50)
        (calculate_momentum_factor mo tactic) := by
  simp only [adjust_one, specAdjustedProb]
  by_cases h : 0 < hist
  · rw [if_pos h, if_pos h]
  · rw [if_neg h, if_neg h]
    congr 2
    ring_nf

/-- C1 corrected: with momentum data present, every adjusted probability
equals the spec's formula, except that the historical factor
`1 + (rate − 50)/100` is applied only when the looked-up success rate is
strictly positive; a rate of 0 (tactic absent or never successful in the
corpus) leaves the base unscaled, as if the rate were 50. -/
theorem adjust_probabilities_formula (base : List (String × List (String × ℚ)))
    (historical : Historical) (mo : Momentum) :
    adjust_probabilities base historical (some mo) =
      base.map (fun ce => (ce.1, ce.2.map (fun tp =>
        (tp.1, specAdjustedProb tp.2
          (if 0 < lookupRate historical.success_rates ce.1 tp.1
           then lookupRate historical.success_rates ce.1 tp.1 else 50)
          (calculate_momentum_factor mo tp.1))))) := by
  unfold adjust_probabilities
  apply List.map_congr_left
  intro ce _
  refine congrArg (fun l => (ce.1, l)) ?_
  apply List.map_congr_left
  intro tp _
  refine congrArg (fun v => (tp.1, v)) ?_
  exact adjust_one_eq_spec mo tp.1 tp.2 (lookupRate historical.success_rates ce.1 tp.1)

/-- C1 as stated is false when a tactic's looked-up historical success
rate is 0: the code then skips the historical factor entirely, while the
spec formula would halve the probability. Here the code leaves 80
unchanged but the formula yields 40. -/
theorem adjust_probabilities_spec_formula_cex :
    adjust_probabilities [("OFFENSIVE", [("power_hitting", 80)])]
          ⟨[("OFFENSIVE", [("power_hitting", 0)])], 5⟩ (some ⟨1/2, 1/2⟩) =
        [("OFFENSIVE", [("power_hitting", 80)])] ∧
      specAdjustedProb 80 0 (calculate_momentum_factor ⟨1/2, 1/2⟩ "power_hitting") = 40 ∧
      ((80 : ℚ)) ≠ 40 := by
  refine ⟨?_, ?_, by norm_num⟩
  · norm_num [adjust_probabilities, adjust_one, lookupRate, calculate_momentum_factor,
      momentumWeight, momentum_weights]
    rw [show ((80 : ℚ)) = (((80 : ℤ) : ℚ)) by norm_num, pyRound2_intCast]
  · norm_num [specAdjustedProb, calculate_momentum_factor, momentumWeight, momentum_weights]
    rw [show ((40 : ℚ)) = (((40 : ℤ) : ℚ)) by norm_num, pyRound2_intCast]

theorem sum_map_add (f g : PlayInd → ℚ) (l : List PlayInd) :
    (l.map f).sum + (l.map g).sum = (l.map (fun r => f r + g r)).sum := by
  induction l with
  | nil => simp
  | cons x xs ih =>
      simp only [List.map_cons, List.sum_cons]
      rw [← ih]
      ring

theorem sum_indicator_eq_filter_length (pos : PlayInd → Bool) (l : List PlayInd) :
    (l.map (fun r => if pos r then (1 : ℚ) else 0)).sum = ((l.filter pos).length : ℚ) := by
  induction l with
  | nil => simp
  | cons x xs ih =>
      cases hx : pos x with
      | true =>
          simp only [List.map_cons, List.sum_cons, hx, if_true, List.filter_cons, ih,
            List.length_cons]
          push_cast
          ring
      | false =>
          simp only [List.map_cons, List.sum_cons, hx, Bool.false_eq_true, if_false,
            List.filter_cons, ih]
          ring

theorem recent_success_side (plays : List PlayInd) (h : plays ≠ [])
    (pos : PlayInd → Bool) (team i1 i2 i3 : String)
    (hfil : ((success_indicators team).filter
      (fun i => allIndicatorCols.contains i)) = [i1, i2, i3])
    (hsum3 : ∀ r ∈ plays, indVal i1 r + indVal i2 r + indVal i3 r = if pos r then 1 else 0) :
    calculate_recent_success allIndicatorCols plays team =
      specRecentSuccessFraction plays pos := by
  have hn : (0 : ℚ) < ((plays.length : ℚ)) := by
    have := List.length_pos.mpr h
    exact_mod_cast this
  have hne : ¬ (plays.isEmpty = true) := by
    rw [List.isEmpty_iff]
    exact h
  unfold calculate_recent_success
  rw [if_neg hne, hfil]
  simp only [List.foldl_cons, List.foldl_nil]
  have hsum : (((0 : ℚ) + (plays.map (indVal i1)).sum) + (plays.map (indVal i2)).sum) +
      (plays.map (indVal i3)).sum = ((plays.filter pos).length : ℚ) := by
    rw [zero_add, sum_map_add, sum_map_add, ← sum_indicator_eq_filter_length pos plays]
    congr 1
    apply List.map_congr_left
    intro r hr
    show indVal i1 r + indVal i2 r + indVal i3 r = _
    exact hsum3 r hr
  rw [hsum]
  have hle : ((plays.filter pos).length : ℚ) / ((plays.length : ℚ)) ≤ 1 := by
    rw [div_le_one hn]
    exact_mod_cast List.length_filter_le _ _
  rw [min_eq_left hle]
  rfl

/-- C6 corrected: the recent-success ratio is `min(Σ indicator totals /
number of plays, 1)`, not in general the fraction of plays with a positive
indicator; the two agree whenever every play contributes at most 1 to the
side's indicator total, as in spec Scenario D. -/
theorem recent_success_ratio_eq_fraction (plays : List PlayInd) (h : plays ≠ [])
    (hb : ∀ r ∈ plays, r.hit + r.walk + r.run_scored = if battingPositive r then 1 else 0)
    (hp : ∀ r ∈ plays, r.strikeout + r.out + r.double_play =
      if pitchingPositive r then 1 else 0) :
    calculate_recent_success allIndicatorCols plays "batting" =
        specRecentSuccessFraction plays battingPositive ∧
      calculate_recent_success allIndicatorCols plays "pitching" =
        specRecentSuccessFraction plays pitchingPositive := by
  constructor
  · exact recent_success_side plays h battingPositive "batting" "hit" "walk" "run_scored"
      rfl (fun r hr => hb r hr)
  · exact recent_success_side plays h pitchingPositive "pitching" "strikeout" "out" "double_play"
      rfl (fun r hr => hp r hr)

theorem recent_success_ratio_eq_fraction_witness :
    (scenarioDPlays ≠ [] ∧
      (∀ r ∈ scenarioDPlays, r.hit + r.walk + r.run_scored =
        if battingPositive r then 1 else 0) ∧
      (∀ r ∈ scenarioDPlays, r.strikeout + r.out + r.double_play =
        if pitchingPositive r then 1 else 0)) ∧
      (calculate_recent_success allIndicatorCols scenarioDPlays "batting" =
          specRecentSuccessFraction scenarioDPlays battingPositive ∧
        calculate_recent_success allIndicatorCols scenarioDPlays "pitching" =
          specRecentSuccessFraction scenarioDPlays pitchingPositive) ∧
      specRecentSuccessFraction scenarioDPlays battingPositive = 4/5 ∧
      specRecentSuccessFraction scenarioDPlays pitchingPositive = 1/5 :=
  ⟨⟨by simp [scenarioDPlays],
    by
      intro r hr
      fin_cases hr <;> norm_num [hitPlay, strikeoutPlay, battingPositive],
    by
      intro r hr
      fin_cases hr <;> norm_num [hitPlay, strikeoutPlay, pitchingPositive]⟩,
   recent_success_ratio_eq_fraction scenarioDPlays (by simp [scenarioDPlays])
     (by
       intro r hr
       fin_cases hr <;> norm_num [hitPlay, strikeoutPlay, battingPositive])
     (by
       intro r hr
       fin_cases hr <;> norm_num [hitPlay, strikeoutPlay, pitchingPositive]),
   by norm_num [specRecentSuccessFraction, scenarioDPlays, battingPositive, hitPlay, strikeoutPlay],
   by norm_num [specRecentSuccessFraction, scenarioDPlays, pitchingPositive, hitPlay, strikeoutPlay]⟩

/-- C6 as stated is false: a play that is both a hit and a scored run is
counted twice by the column-total sum, so the code's ratio (2/5 here)
exceeds the fraction of plays with a positive indicator (1/5 here). -/
theorem recent_success_not_fraction_cex :
    calculate_recent_success allIndicatorCols cexPlays "batting" = 2/5 ∧
      specRecentSuccessFraction cexPlays battingPositive = 1/5 ∧
      calculate_recent_success allIndicatorCols cexPlays "batting" ≠
        specRecentSuccessFraction cexPlays battingPositive := by
  have h1 : calculate_recent_success allIndicatorCols cexPlays "batting" = 2/5 := by
    norm_num [calculate_recent_success, allIndicatorCols, cexPlays, doubleCountPlay, quietPlay,
      success_indicators, indVal]
  have h2 : specRecentSuccessFraction cexPlays battingPositive = 1/5 := by
    norm_num [specRecentSuccessFraction, cexPlays, battingPositive, doubleCountPlay, quietPlay]
  refine ⟨h1, h2, ?_⟩
  rw [h1, h2]
  norm_num

end TacticScout
